import Mathlib

set_option maxHeartbeats 1000000

/-!
Verification development for the kernel-driver debug TUI repository.

The definitions below shallowly embed the three C source files:
  src/kernel_debugger.bpf.c          (kernel probe program, perf-event output)
  src/bpf_templates/enhanced_bpf_template.c  (ring-buffer probe template)
  src/kernel_debugger_tui.c          (interactive front end and session state)
Machine integers are modelled as Nat with explicit reductions modulo 2 ^ 32
or 2 ^ 64 where the C code truncates; fallible kernel helpers are modelled
as Option-valued oracles passed in as parameters.
-/

/-- Upper 32 bits of a u64 value, as computed by pid_tgid shifted right 32. -/
def upper32 (x : Nat) : Nat := x % 2 ^ 64 / 2 ^ 32

/-- Lower 32 bits of a u64 value, as computed by masking with 0xFFFFFFFF. -/
def lower32 (x : Nat) : Nat := x % 2 ^ 32

/-- Control record from src/kernel_debugger.bpf.c lines 59-63
(struct debugger_control).  The fields debug_mode and global_enable are u8
and target_pid is u32; C truthiness treats a field as set when nonzero. -/
structure DebuggerControl where
  debug_mode : Nat
  target_pid : Nat
  global_enable : Nat
deriving Repr, DecidableEq

/-- Embedding of should_trace_process, src/kernel_debugger.bpf.c lines 87-92.
The ctrl argument is the result of the control-map lookup; none models a
null pointer.  Returns true exactly when the probe should do further work. -/
def should_trace_process (ctrl : Option DebuggerControl) (current_pid : Nat) : Bool :=
  match ctrl with
  | none => false
  | some c =>
    if c.global_enable = 0 then false
    else decide (c.target_pid = 0) || decide (c.target_pid = current_pid)

/-- Character-copying loop of safe_strcpy, src/kernel_debugger.bpf.c
lines 95-101.  The fuel argument is the remaining iteration budget
max_len - 1 - i, matching the loop bound i < max_len - 1; the loop also
stops at the first zero byte of the source. -/
def strcpy_chars (src : Nat → Nat) (i : Nat) : Nat → List Nat
  | 0 => []
  | n + 1 => if src i = 0 then [] else src i :: strcpy_chars src (i + 1) n

/-- Indices of the source bytes read by the safe_strcpy loop: each iteration
evaluates src at index i before deciding whether to continue, so the index
of a terminating zero byte is read but nothing beyond it. -/
def strcpy_reads (src : Nat → Nat) (i : Nat) : Nat → List Nat
  | 0 => []
  | n + 1 => i :: (if src i = 0 then [] else strcpy_reads src (i + 1) n)

/-- Embedding of safe_strcpy, src/kernel_debugger.bpf.c lines 95-101.
The source is an Option to model a null src pointer, which the loop guard
checks each iteration; the result is the list of bytes written to dst,
always finishing with the explicitly written zero terminator. -/
def safe_strcpy (src : Option (Nat → Nat)) (max_len : Nat) : List Nat :=
  match src with
  | none => [0]
  | some f => strcpy_chars f 0 (max_len - 1) ++ [0]

/-- Source indices read by safe_strcpy; a null source is never dereferenced. -/
def safe_strcpy_reads (src : Option (Nat → Nat)) (max_len : Nat) : List Nat :=
  match src with
  | none => []
  | some f => strcpy_reads f 0 (max_len - 1)

/-- The characters safe_strcpy copies out of the source, without the
terminator it appends. -/
def strcpy_source_chars (src : Option (Nat → Nat)) (max_len : Nat) : List Nat :=
  match src with
  | none => []
  | some f => strcpy_chars f 0 (max_len - 1)

/-- MAX_FUNCTION_NAME from src/kernel_debugger.bpf.c line 38. -/
def MAX_FUNCTION_NAME : Nat := 64

/-- Wire event emitted by the kernel probe, src/kernel_debugger.bpf.c
lines 48-56 (struct debug_event).  The function_name field is the full
64-byte array. -/
structure DebugEvent where
  timestamp : Nat
  pid : Nat
  tid : Nat
  cpu : Nat
  event_type : Nat
  function_name : List Nat
  instruction_pointer : Nat
deriving Repr, DecidableEq

/-- Pads a byte list with zeroes up to length n, modelling the zero
initialisation of struct debug_event before safe_strcpy overlays it. -/
def pad_zero (n : Nat) (l : List Nat) : List Nat :=
  l ++ List.replicate (n - l.length) 0

/-- Length of the C string content of a byte array: the bytes before the
first zero byte. -/
def cstr_len (l : List Nat) : Nat := (l.takeWhile (fun c => c != 0)).length

/-- Embedding of send_debug_event, src/kernel_debugger.bpf.c lines 104-124.
Inputs that the kernel supplies (pid_tgid, clock, cpu) are parameters; the
func_name pointer is an Option byte memory.  The result is the event passed
to bpf_perf_event_output, or none when should_trace_process rejects the
firing and the function returns before building an event. -/
def send_debug_event (ctrl : Option DebuggerControl) (pid_tgid ts cpu : Nat)
    (event_type : Nat) (func_name : Option (Nat → Nat)) : Option DebugEvent :=
  if should_trace_process ctrl (upper32 pid_tgid) then
    some
      { timestamp := ts
        pid := upper32 pid_tgid
        tid := lower32 pid_tgid
        cpu := cpu
        event_type := event_type
        function_name :=
          match func_name with
          | none => List.replicate MAX_FUNCTION_NAME 0
          | some f => pad_zero MAX_FUNCTION_NAME (safe_strcpy (some f) MAX_FUNCTION_NAME)
        instruction_pointer := 0 }
  else none

/-- Trap context fields the template probe reads through the PT_REGS macros
in src/bpf_templates/enhanced_bpf_template.c. -/
structure PtRegs where
  ip : Nat
  rc : Nat
  sp : Nat
  fp : Nat
  parm1 : Nat
  parm2 : Nat
  parm3 : Nat
  parm4 : Nat
  parm5 : Nat
  parm6 : Nat
deriving Repr, DecidableEq

/-- Bytes of a string literal followed by its zero terminator, as copied by
bpf_probe_read_str. -/
def str_bytes (s : String) : List Nat := s.data.map Char.toNat ++ [0]

/-- Embedding of read_user_stack_data, src/bpf_templates/enhanced_bpf_template.c
lines 51-66.  The readUser oracle models bpf_probe_read_user and yields none
on a failed read, in which case the slot is set to zero; slots beyond the
loop bound keep the zero from the memset of the enclosing event. -/
def read_user_stack_data (readUser : Int → Option Nat) (sp : Nat) (count : Nat) :
    List Nat :=
  ((List.range (min count 8)).map fun i : Nat =>
    match readUser ((sp : Int) + (i : Int) * 8) with
    | some v => v
    | none => 0) ++ List.replicate (8 - min count 8) 0

/-- Embedding of read_local_variables, src/bpf_templates/enhanced_bpf_template.c
lines 69-84: reads below the frame pointer, zero on failed read. -/
def read_local_variables (readUser : Int → Option Nat) (fp : Nat) (count : Nat) :
    List Nat :=
  ((List.range (min count 16)).map fun i : Nat =>
    match readUser ((fp : Int) - ((i : Int) + 1) * 8) with
    | some v => v
    | none => 0) ++ List.replicate (16 - min count 16) 0

/-- Event record of the template probe, src/bpf_templates/enhanced_bpf_template.c
lines 17-34 (struct enhanced_debug_event). -/
structure EnhancedDebugEvent where
  pid : Nat
  tgid : Nat
  timestamp : Nat
  breakpoint_id : Nat
  comm : List Nat
  function_name : List Nat
  pc : Nat
  ra : Nat
  sp : Nat
  gp : Nat
  tp : Nat
  t0 : Nat
  t1 : Nat
  t2 : Nat
  s0 : Nat
  s1 : Nat
  a0 : Nat
  a1 : Nat
  a2 : Nat
  a3 : Nat
  a4 : Nat
  a5 : Nat
  a6 : Nat
  a7 : Nat
  stack_data : List Nat
  local_vars : List Nat
deriving Repr, DecidableEq

/-- Population of the event record by enhanced_breakpoint_probe,
src/bpf_templates/enhanced_bpf_template.c lines 106-146: after the memset
every field is written exactly as the source does, with the fields the probe
cannot read (tp, a6, a7, t0, t1, t2, s0, s1) explicitly zero. -/
def mk_enhanced_event (pid_tgid ts : Nat) (comm : List Nat) (ctx : PtRegs)
    (readUser : Int → Option Nat) : EnhancedDebugEvent :=
  { pid := lower32 pid_tgid
    tgid := upper32 pid_tgid
    timestamp := ts
    breakpoint_id := 1
    comm := comm
    function_name := str_bytes "target_function"
    pc := ctx.ip
    ra := ctx.rc
    sp := ctx.sp
    gp := ctx.fp
    tp := 0
    t0 := 0
    t1 := 0
    t2 := 0
    s0 := 0
    s1 := 0
    a0 := ctx.parm1
    a1 := ctx.parm2
    a2 := ctx.parm3
    a3 := ctx.parm4
    a4 := ctx.parm5
    a5 := ctx.parm6
    a6 := 0
    a7 := 0
    stack_data := read_user_stack_data readUser ctx.sp 8
    local_vars := read_local_variables readUser ctx.fp 16 }

/-- Observable outcome of one firing of the template probe: whether a
ring-buffer reservation was attempted, the event submitted (none when the
probe bails out or the reservation fails), and the list of map writes the
probe performs, recorded as name-value pairs.  The probe body performs no
map write on any path. -/
structure ProbeResult where
  reserve_attempted : Bool
  emitted : Option EnhancedDebugEvent
  map_writes : List (String × Nat)
deriving Repr, DecidableEq

/-- Embedding of enhanced_breakpoint_probe, src/bpf_templates/enhanced_bpf_template.c
lines 87-158.  The enabled argument is the debug_control map lookup (none
models a missing entry); reserve_ok tells whether bpf_ringbuf_reserve
succeeds.  Disabled or missing control returns before any reservation; a
failed reservation returns with nothing emitted and no other effect. -/
def enhanced_breakpoint_probe (enabled : Option Nat) (reserve_ok : Bool)
    (pid_tgid ts : Nat) (comm : List Nat) (ctx : PtRegs)
    (readUser : Int → Option Nat) : ProbeResult :=
  match enabled with
  | none => { reserve_attempted := false, emitted := none, map_writes := [] }
  | some e =>
    if e = 0 then { reserve_attempted := false, emitted := none, map_writes := [] }
    else if reserve_ok then
      { reserve_attempted := true
        emitted := some (mk_enhanced_event pid_tgid ts comm ctx readUser)
        map_writes := [] }
    else { reserve_attempted := true, emitted := none, map_writes := [] }

/-- debug_state_t from src/kernel_debugger_tui.c lines 37-42. -/
inductive DebugState
  | stopped
  | running
  | stepping
  | breakpoint
deriving Repr, DecidableEq

/-- window_focus_t from src/kernel_debugger_tui.c lines 67-75. -/
inductive WindowFocus
  | registers
  | variables
  | stack
  | code
  | memory
  | command
deriving Repr, DecidableEq

/-- Successor focus, modelling (current_focus + 1) % FOCUS_COUNT at
src/kernel_debugger_tui.c line 930. -/
def next_focus : WindowFocus → WindowFocus
  | .registers => .variables
  | .variables => .stack
  | .stack => .code
  | .code => .memory
  | .memory => .command
  | .command => .registers

/-- riscv_regs_t from src/kernel_debugger_tui.c lines 53-64. -/
structure RiscvRegs where
  pc : Nat
  ra : Nat
  sp : Nat
  gp : Nat
  tp : Nat
  t0 : Nat
  t1 : Nat
  t2 : Nat
  s0 : Nat
  s1 : Nat
  a0 : Nat
  a1 : Nat
  a2 : Nat
  a3 : Nat
  a4 : Nat
  a5 : Nat
  a6 : Nat
  a7 : Nat
  s2 : Nat
  s3 : Nat
  s4 : Nat
  s5 : Nat
  s6 : Nat
  s7 : Nat
  s8 : Nat
  s9 : Nat
  s10 : Nat
  s11 : Nat
  t3 : Nat
  t4 : Nat
  t5 : Nat
  t6 : Nat
deriving Repr, DecidableEq

/-- breakpoint_t from src/kernel_debugger_tui.c lines 45-50; the linked list
is modelled as a Lean list. -/
structure Breakpoint where
  addr : Nat
  enabled : Bool
  symbol : String
deriving Repr, DecidableEq

/-- The debugger context debugger_ctx_t from src/kernel_debugger_tui.c
lines 78-126, restricted to its data fields.  The ncurses window and panel
handles, the perf file descriptor and mmap pointer are opaque handles whose
only use is io, and the mutex and thread handles are concurrency primitives
modelled separately by action traces. -/
structure DebuggerCtx where
  state : DebugState
  bpf_fd : Int
  bpf_loaded : Bool
  regs : RiscvRegs
  breakpoints : List Breakpoint
  current_function : String
  current_addr : Nat
  reg_scroll_pos : Int
  var_scroll_pos : Int
  stack_scroll_pos : Int
  code_scroll_pos : Int
  mem_scroll_pos : Int
  running : Bool
  mouse_enabled : Bool
  current_focus : WindowFocus
deriving Repr, DecidableEq

/-- Lower clamp used by every branch of handle_window_scroll: the position
is first moved by the direction and then reset to 0 when negative. -/
def clamp0 (x : Int) : Int := if x < 0 then 0 else x

/-- Embedding of handle_window_scroll, src/kernel_debugger_tui.c
lines 240-266: the scroll position of the focused view moves by direction
and is clamped at zero; the default branch (command focus) changes nothing. -/
def handle_window_scroll (ctx : DebuggerCtx) (direction : Int) : DebuggerCtx :=
  match ctx.current_focus with
  | .registers => { ctx with reg_scroll_pos := clamp0 (ctx.reg_scroll_pos + direction) }
  | .variables => { ctx with var_scroll_pos := clamp0 (ctx.var_scroll_pos + direction) }
  | .stack => { ctx with stack_scroll_pos := clamp0 (ctx.stack_scroll_pos + direction) }
  | .code => { ctx with code_scroll_pos := clamp0 (ctx.code_scroll_pos + direction) }
  | .memory => { ctx with mem_scroll_pos := clamp0 (ctx.mem_scroll_pos + direction) }
  | .command => ctx

/-- Key presses dispatched by the switch in handle_input,
src/kernel_debugger_tui.c lines 874-942.  Upper and lower case letters take
the same branch, so one constructor covers both. -/
inductive InputKey
  | keyF5
  | keyF10
  | keyF11
  | keyQ
  | keyC
  | keyS
  | keyB
  | keyR
  | keyMouse
  | keyTab
  | keyResize
  | keyOther
deriving Repr, DecidableEq

/-- Embedding of load_bpf_program, src/kernel_debugger_tui.c lines 782-835.
The load_result parameter stands for the outcome of the file io and the
BPF_PROG_LOAD system call: none on any failure (bpf_loaded stays false and
bpf_fd stays -1), some fd on success. -/
def load_bpf_program (load_result : Option Int) (ctx : DebuggerCtx) : DebuggerCtx :=
  match load_result with
  | none => { ctx with bpf_loaded := false, bpf_fd := -1 }
  | some fd => { ctx with bpf_loaded := true, bpf_fd := fd }

/-- State effect of handle_input, src/kernel_debugger_tui.c lines 870-943.
F5 and c continue (state running); F10, F11 and s step (state stepping);
q clears the running flag; b sets the breakpoint state; r closes the BPF fd
and reloads; tab advances the focus; mouse and resize branches touch no
session data. -/
def handle_input (load_result : Option Int) (ctx : DebuggerCtx) (key : InputKey) :
    DebuggerCtx :=
  match key with
  | .keyF5 => { ctx with state := .running }
  | .keyF10 => { ctx with state := .stepping }
  | .keyF11 => { ctx with state := .stepping }
  | .keyQ => { ctx with running := false }
  | .keyC => { ctx with state := .running }
  | .keyS => { ctx with state := .stepping }
  | .keyB => { ctx with state := .breakpoint }
  | .keyR => load_bpf_program load_result { ctx with bpf_fd := -1 }
  | .keyMouse => ctx
  | .keyTab => { ctx with current_focus := next_focus ctx.current_focus }
  | .keyResize => ctx
  | .keyOther => ctx

/-- Initial register file set up by init_debugger, src/kernel_debugger_tui.c
lines 948 and 963-966: the context is memset to zero, then pc, sp and ra are
assigned. -/
def init_regs : RiscvRegs :=
  { pc := 0xffffffff80000000
    ra := 0xffffffff80000100
    sp := 0xffffffff80800000
    gp := 0, tp := 0, t0 := 0, t1 := 0, t2 := 0, s0 := 0, s1 := 0
    a0 := 0, a1 := 0, a2 := 0, a3 := 0, a4 := 0, a5 := 0, a6 := 0, a7 := 0
    s2 := 0, s3 := 0, s4 := 0, s5 := 0, s6 := 0, s7 := 0, s8 := 0, s9 := 0
    s10 := 0, s11 := 0, t3 := 0, t4 := 0, t5 := 0, t6 := 0 }

/-- Embedding of init_debugger, src/kernel_debugger_tui.c lines 946-969:
memset to zero, then state stopped, running set, kernel start address and
function, BPF unloaded, focus on the code window. -/
def init_debugger : DebuggerCtx :=
  { state := .stopped
    bpf_fd := -1
    bpf_loaded := false
    regs := init_regs
    breakpoints := []
    current_function := "taco_sys_init"
    current_addr := 0xffffffff80000000
    reg_scroll_pos := 0
    var_scroll_pos := 0
    stack_scroll_pos := 0
    code_scroll_pos := 0
    mem_scroll_pos := 0
    running := true
    mouse_enabled := false
    current_focus := .code }

/-- One iteration of the simulated event thread, src/kernel_debugger_tui.c
lines 842-864 (the locked section): pc advances by four (u64 arithmetic),
current_addr mirrors it, and in the running state the displayed function
name cycles with a counter.  The loop ingests no ring-buffer events and
never changes the state field. -/
def event_thread_step (ctx : DebuggerCtx) (counter : Nat) : DebuggerCtx :=
  let pc2 := (ctx.regs.pc + 4) % 2 ^ 64
  let c1 := { ctx with regs := { ctx.regs with pc := pc2 }, current_addr := pc2 }
  if c1.state = DebugState.running then
    if counter % 10 = 0 then { c1 with current_function := "taco_sys_mmz_alloc" }
    else if counter % 7 = 0 then { c1 with current_function := "taco_sys_init" }
    else c1
  else c1

/-- Atomic actions visible in the concurrency discipline of
src/kernel_debugger_tui.c: mutex acquisition and release on data_mutex,
writes to the shared debugger context, and io (ncurses drawing, file and
system calls, sleeps). -/
inductive Act
  | lock
  | unlock
  | write_session
  | io
deriving Repr, DecidableEq

/-- Action trace of update_all_windows, src/kernel_debugger_tui.c
lines 763-779: pthread_mutex_lock, then the seven window redraw calls plus
the panel flush (io on the shared context), then pthread_mutex_unlock. -/
def update_all_windows_acts : List Act :=
  [.lock, .io, .io, .io, .io, .io, .io, .io, .io, .unlock]

/-- Action trace of one iteration of event_thread, src/kernel_debugger_tui.c
lines 842-864: a 100 ms sleep outside the lock, then the lock, the writes to
regs.pc, current_addr and current_function, and the unlock. -/
def event_thread_iteration_acts : List Act :=
  [.io, .lock, .write_session, .write_session, .write_session, .unlock]

/-- Action trace of each branch of handle_input, src/kernel_debugger_tui.c
lines 870-943.  Every state assignment is a direct write with no mutex call
around it; the r branch interleaves the close and load io with its writes,
the tab branch writes the focus then moves the cursor, the mouse branch only
reads the event, and the resize branch redraws via update_all_windows. -/
def handle_input_acts : InputKey → List Act
  | .keyF5 => [.write_session]
  | .keyF10 => [.write_session]
  | .keyF11 => [.write_session]
  | .keyQ => [.write_session]
  | .keyC => [.write_session]
  | .keyS => [.write_session]
  | .keyB => [.write_session]
  | .keyR => [.io, .write_session, .io, .write_session]
  | .keyMouse => [.io]
  | .keyTab => [.write_session, .io]
  | .keyResize => [.io, .io, .io] ++ update_all_windows_acts
  | .keyOther => []

/-- Checks a trace against the locking contract of the specification: every
write to the session state happens while the lock depth is positive.  The
second argument is the lock depth at the start of the trace. -/
def writes_locked : List Act → Nat → Bool
  | [], _ => true
  | .lock :: rest, d => writes_locked rest (d + 1)
  | .unlock :: rest, d => writes_locked rest (d - 1)
  | .write_session :: rest, d => decide (0 < d) && writes_locked rest d
  | .io :: rest, d => writes_locked rest d

/-- Formalisation of the specification sentence that a dropped event must be
counted in a drop counter: the probe records at least one map write when its
reservation fails. -/
def drop_counter_incremented (r : ProbeResult) : Prop := r.map_writes ≠ []

/-- Event kinds of the DebugEvent contract in the specification data model. -/
inductive EventKind
  | fnEntry
  | fnExit
  | breakpointHit
deriving Repr, DecidableEq

/-- Decoded event handed to the session layer by the ingestion service. -/
structure IngestEvent where
  kind : EventKind
  addr : Nat
  function_name : String
  regs : RiscvRegs
deriving Repr, DecidableEq

/-- Modelled from the spec: the event-application step of the Event
Ingestion Service (spec section 4.3, step 2) is absent from src, whose
event_thread only advances simulated data and ingests no events.  Following
the words of the spec, applying a decoded event updates the current
function, address and register snapshot, and when the event kind is
breakpoint-hit and the address matches an enabled breakpoint the debug
state transitions to at-breakpoint. -/
def apply_event (ctx : DebuggerCtx) (e : IngestEvent) : DebuggerCtx :=
  let base :=
    { ctx with
      current_function := e.function_name
      current_addr := e.addr
      regs := e.regs }
  if decide (e.kind = EventKind.breakpointHit) &&
      ctx.breakpoints.any (fun bp => decide (bp.addr = e.addr) && bp.enabled) then
    { base with state := .breakpoint }
  else base

/-- ControlState of the specification data model (section 3): the master
enable switch, the process filter and the mode byte shared with the kernel
probes. -/
structure ControlState where
  global_enable : Bool
  target_process_id : Nat
  debug_mode : Nat
deriving Repr, DecidableEq

/-- Errors of the Breakpoint Manager operations, spec section 4.4. -/
inductive BpmError
  | DuplicateBreakpoint
  | NotFound
deriving Repr, DecidableEq

/-- State owned by the Breakpoint Manager: the breakpoint set together with
the kernel-side control mirror it reconciles. -/
structure BpmState where
  bps : List Breakpoint
  ctrl : ControlState
deriving Repr, DecidableEq

/-- Reconciliation step of the Breakpoint Manager, spec section 4.4: after
every mutation the control state records whether any enabled breakpoint
requires the probes to be on. -/
def reconcile (s : BpmState) : BpmState :=
  { s with
    ctrl := { s.ctrl with global_enable := s.bps.any (fun bp => bp.enabled) } }

/-- Ordered insertion by address, giving the deterministic address-ordered
list required of the Breakpoint Manager set. -/
def bpm_insert (bp : Breakpoint) : List Breakpoint → List Breakpoint
  | [] => [bp]
  | x :: xs => if bp.addr < x.addr then bp :: x :: xs else x :: bpm_insert bp xs

/-- Modelled from the spec: the Breakpoint Manager operations of section 4.4
are absent from src, where the b key merely sets the display state and the
breakpoint list is never populated; only the breakpoint_t and control
declarations exist.  Add fails with DuplicateBreakpoint when the address
already exists, otherwise inserts the breakpoint (created enabled) in
address order and reconciles the control state in the same step. -/
def bpm_add (s : BpmState) (addr : Nat) (symbol : String) :
    Except BpmError BpmState :=
  if s.bps.any (fun bp => decide (bp.addr = addr)) then
    .error .DuplicateBreakpoint
  else .ok (reconcile { s with bps := bpm_insert { addr := addr, enabled := true, symbol := symbol } s.bps })

/-- Modelled from the spec: remove fails with NotFound when the address is
absent, otherwise deletes the breakpoint and reconciles in the same step. -/
def bpm_remove (s : BpmState) (addr : Nat) : Except BpmError BpmState :=
  if s.bps.any (fun bp => decide (bp.addr = addr)) then
    .ok (reconcile { s with bps := s.bps.filter (fun bp => !decide (bp.addr = addr)) })
  else .error .NotFound

/-- Modelled from the spec: toggle sets the enabled flag of the breakpoint
at the given address and reconciles in the same step. -/
def bpm_toggle (s : BpmState) (addr : Nat) (en : Bool) : BpmState :=
  reconcile
    { s with
      bps := s.bps.map fun bp =>
        if bp.addr = addr then { bp with enabled := en } else bp }

/-- Mutating operations of the Breakpoint Manager. -/
inductive BpmOp
  | add (addr : Nat) (symbol : String)
  | remove (addr : Nat)
  | toggle (addr : Nat) (en : Bool)
deriving Repr, DecidableEq

/-- Applies one operation; a failing operation reports its error to the
caller and leaves the state unchanged (spec section 7). -/
def bpm_apply (s : BpmState) : BpmOp → BpmState
  | .add a sym =>
    match bpm_add s a sym with
    | .ok t => t
    | .error _ => s
  | .remove a =>
    match bpm_remove s a with
    | .ok t => t
    | .error _ => s
  | .toggle a en => bpm_toggle s a en

/-- Initial Breakpoint Manager state: no breakpoints, probes disabled. -/
def bpm_init : BpmState :=
  { bps := [], ctrl := { global_enable := false, target_process_id := 0, debug_mode := 0 } }

/-- Runs a sequence of Breakpoint Manager operations from the initial state. -/
def bpm_run (ops : List BpmOp) : BpmState := ops.foldl bpm_apply bpm_init

/-- Reconciliation invariant of the Breakpoint Manager: the control mirror
records exactly whether some breakpoint is enabled. -/
def bpm_inv (s : BpmState) : Prop :=
  s.ctrl.global_enable = s.bps.any (fun bp => bp.enabled)

theorem reconcile_establishes_inv (s : BpmState) : bpm_inv (reconcile s) := rfl

theorem bpm_apply_preserves_inv (s : BpmState) (h : bpm_inv s) (op : BpmOp) :
    bpm_inv (bpm_apply s op) := by
  cases op with
  | add a sym =>
    by_cases hc : s.bps.any (fun bp => decide (bp.addr = a)) = true
    · simpa [bpm_apply, bpm_add, hc] using h
    · simp only [bpm_apply, bpm_add, hc]
      simp only [Bool.not_eq_true] at hc
      simp [hc]
      exact reconcile_establishes_inv _
  | remove a =>
    by_cases hc : s.bps.any (fun bp => decide (bp.addr = a)) = true
    · simp only [bpm_apply, bpm_remove, hc, if_true]
      exact reconcile_establishes_inv _
    · simp only [Bool.not_eq_true] at hc
      simpa [bpm_apply, bpm_remove, hc] using h
  | toggle a en => exact reconcile_establishes_inv _

theorem bpm_run_preserves_inv (ops : List BpmOp) : bpm_inv (bpm_run ops) := by
  have h : ∀ s, bpm_inv s → bpm_inv (ops.foldl bpm_apply s) := by
    induction ops with
    | nil => exact fun s hs => hs
    | cons op rest ih => exact fun s hs => ih _ (bpm_apply_preserves_inv s hs op)
  exact h bpm_init rfl

/-- Claim C1: for every sequence of add, remove and toggle operations on the
Breakpoint Manager, after each operation the ControlState field
global_enable is true if and only if at least one breakpoint in the set is
enabled; every mutating operation reconciles the control state in the same
logical step.  The manager is modelled from the spec because src contains
only the breakpoint and control declarations. -/
theorem claim_C1 (ops : List BpmOp) :
    (bpm_run ops).ctrl.global_enable = true ↔
      ∃ bp ∈ (bpm_run ops).bps, bp.enabled = true := by
  have h := bpm_run_preserves_inv ops
  unfold bpm_inv at h
  rw [h]
  simp [List.any_eq_true]

/-- Claim C3: the session starts stopped, F5 and c set the state to running,
F10, F11 and s set it to stepping, and q clears the running flag (ending
the session loop) while leaving the state field alone; none of these
commands produces any other state. -/
theorem claim_C3 :
    init_debugger.state = DebugState.stopped
    ∧ ∀ (lr : Option Int) (ctx : DebuggerCtx),
        (handle_input lr ctx .keyF5).state = DebugState.running
        ∧ (handle_input lr ctx .keyC).state = DebugState.running
        ∧ (handle_input lr ctx .keyF10).state = DebugState.stepping
        ∧ (handle_input lr ctx .keyF11).state = DebugState.stepping
        ∧ (handle_input lr ctx .keyS).state = DebugState.stepping
        ∧ (handle_input lr ctx .keyQ).running = false
        ∧ (handle_input lr ctx .keyQ).state = ctx.state
        ∧ (handle_input lr ctx .keyF5).running = ctx.running
        ∧ (handle_input lr ctx .keyC).running = ctx.running
        ∧ (handle_input lr ctx .keyF10).running = ctx.running
        ∧ (handle_input lr ctx .keyF11).running = ctx.running
        ∧ (handle_input lr ctx .keyS).running = ctx.running :=
  ⟨rfl, fun _ _ => ⟨rfl, rfl, rfl, rfl, rfl, rfl, rfl, rfl, rfl, rfl, rfl, rfl⟩⟩

/-- Claim C9: a scroll command moves only the scroll cursor of the focused
view, clamping it at zero, and leaves the cursors of all other views
unchanged. -/
theorem claim_C9 (ctx : DebuggerCtx) (d : Int) :
    (0 ≤ ctx.reg_scroll_pos → 0 ≤ (handle_window_scroll ctx d).reg_scroll_pos)
    ∧ (0 ≤ ctx.var_scroll_pos → 0 ≤ (handle_window_scroll ctx d).var_scroll_pos)
    ∧ (0 ≤ ctx.stack_scroll_pos → 0 ≤ (handle_window_scroll ctx d).stack_scroll_pos)
    ∧ (0 ≤ ctx.code_scroll_pos → 0 ≤ (handle_window_scroll ctx d).code_scroll_pos)
    ∧ (0 ≤ ctx.mem_scroll_pos → 0 ≤ (handle_window_scroll ctx d).mem_scroll_pos)
    ∧ (ctx.current_focus ≠ .registers →
        (handle_window_scroll ctx d).reg_scroll_pos = ctx.reg_scroll_pos)
    ∧ (ctx.current_focus ≠ .variables →
        (handle_window_scroll ctx d).var_scroll_pos = ctx.var_scroll_pos)
    ∧ (ctx.current_focus ≠ .stack →
        (handle_window_scroll ctx d).stack_scroll_pos = ctx.stack_scroll_pos)
    ∧ (ctx.current_focus ≠ .code →
        (handle_window_scroll ctx d).code_scroll_pos = ctx.code_scroll_pos)
    ∧ (ctx.current_focus ≠ .memory →
        (handle_window_scroll ctx d).mem_scroll_pos = ctx.mem_scroll_pos) := by
  have hc : ∀ x : Int, 0 ≤ clamp0 x := by
    intro x
    unfold clamp0
    split <;> omega
  cases h : ctx.current_focus <;> simp [handle_window_scroll, h, hc]

/-- Claim C9 witness at a concrete context and scroll direction. -/
theorem claim_C9_witness :
    0 ≤ (handle_window_scroll init_debugger (-3)).code_scroll_pos
    ∧ (handle_window_scroll init_debugger (-3)).reg_scroll_pos =
        init_debugger.reg_scroll_pos :=
  ⟨(claim_C9 init_debugger (-3)).2.2.2.1 (by decide),
   (claim_C9 init_debugger (-3)).2.2.2.2.2.1 (by decide)⟩

/-- Claim C10: a missing control-map entry disables tracing exactly like a
cleared enable flag: the lookup-miss path of both probes emits nothing,
attempts no ring-buffer reservation, and coincides with the
global_enable = 0 behaviour. -/
theorem claim_C10 :
    (∀ pid, should_trace_process none pid = false)
    ∧ (∀ pid_tgid ts cpu et fn,
        send_debug_event none pid_tgid ts cpu et fn = none)
    ∧ (∀ m tp pid_tgid ts cpu et fn,
        send_debug_event none pid_tgid ts cpu et fn =
          send_debug_event
            (some { debug_mode := m, target_pid := tp, global_enable := 0 })
            pid_tgid ts cpu et fn)
    ∧ (∀ (ro : Bool) (pt ts : Nat) (comm : List Nat) (ctx : PtRegs)
        (ru : Int → Option Nat),
        enhanced_breakpoint_probe none ro pt ts comm ctx ru =
          { reserve_attempted := false, emitted := none, map_writes := [] }
        ∧ enhanced_breakpoint_probe none ro pt ts comm ctx ru =
            enhanced_breakpoint_probe (some 0) ro pt ts comm ctx ru) :=
  ⟨fun _ => rfl, fun _ _ _ _ _ => rfl, fun _ _ _ _ _ _ _ => rfl,
   fun _ _ _ _ _ _ => ⟨rfl, rfl⟩⟩

/-- Claim C2: a probe firing emits an event exactly when the control lookup
succeeds, the enable flag is set and the process filter matches; in every
rejected case the probe returns before building an event or reserving
buffer space. -/
theorem claim_C2 :
    (∀ (ctrl : Option DebuggerControl) (pid_tgid ts cpu et : Nat)
      (fn : Option (Nat → Nat)),
      (send_debug_event ctrl pid_tgid ts cpu et fn).isSome = true ↔
        ∃ c, ctrl = some c ∧ c.global_enable ≠ 0 ∧
          (c.target_pid = 0 ∨ c.target_pid = upper32 pid_tgid))
    ∧ (∀ (ro : Bool) (pt ts : Nat) (comm : List Nat) (ctx : PtRegs)
        (ru : Int → Option Nat),
        enhanced_breakpoint_probe none ro pt ts comm ctx ru =
          { reserve_attempted := false, emitted := none, map_writes := [] }
        ∧ enhanced_breakpoint_probe (some 0) ro pt ts comm ctx ru =
          { reserve_attempted := false, emitted := none, map_writes := [] }
        ∧ ∀ e, e ≠ 0 →
            (enhanced_breakpoint_probe (some e) true pt ts comm ctx ru).emitted ≠
              none) := by
  constructor
  · intro ctrl pid_tgid ts cpu et fn
    cases ctrl with
    | none => simp [send_debug_event, should_trace_process]
    | some c =>
      by_cases h : c.global_enable = 0
      · simp [send_debug_event, should_trace_process, h]
      · by_cases h0 : c.target_pid = 0
        · simp [send_debug_event, should_trace_process, h, h0]
        · by_cases hp : c.target_pid = upper32 pid_tgid
          · simp [send_debug_event, should_trace_process, h, h0, hp]
          · simp [send_debug_event, should_trace_process, h, h0, hp]
  · intro ro pt ts comm ctx ru
    refine ⟨rfl, rfl, fun e he => ?_⟩
    simp [enhanced_breakpoint_probe, he]

/-- Claim C2 witness: with the enable flag set and no process filter the
kernel probe emits, and the template probe emits when its reservation
succeeds. -/
theorem claim_C2_witness :
    (send_debug_event (some { debug_mode := 0, target_pid := 0, global_enable := 1 })
        5 6 7 0 none).isSome = true
    ∧ (enhanced_breakpoint_probe (some 1) true 5 6 []
        { ip := 0, rc := 0, sp := 0, fp := 0, parm1 := 0, parm2 := 0,
          parm3 := 0, parm4 := 0, parm5 := 0, parm6 := 0 }
        (fun _ => none)).emitted ≠ none :=
  ⟨(claim_C2.1 _ 5 6 7 0 none).mpr ⟨_, rfl, by decide, Or.inl rfl⟩,
   (claim_C2.2 true 5 6 []
      { ip := 0, rc := 0, sp := 0, fp := 0, parm1 := 0, parm2 := 0,
        parm3 := 0, parm4 := 0, parm5 := 0, parm6 := 0 }
      (fun _ => none)).2.2 1 (by decide)⟩

/-- Concrete trap context used by the closed-form theorems below. -/
def ptregs0 : PtRegs :=
  { ip := 0, rc := 0, sp := 0, fp := 0, parm1 := 0, parm2 := 0,
    parm3 := 0, parm4 := 0, parm5 := 0, parm6 := 0 }

/-- Claim C7 counterexample: at a concrete firing with tracing enabled and a
full ring buffer the template probe does drop the event (a reservation was
attempted, nothing is emitted) but performs no map write at all, so the
drop is not counted in any drop counter. -/
theorem claim_C7_counterexample :
    (enhanced_breakpoint_probe (some 1) false 7 7 [] ptregs0
        (fun _ => none)).reserve_attempted = true
    ∧ (enhanced_breakpoint_probe (some 1) false 7 7 [] ptregs0
        (fun _ => none)).emitted = none
    ∧ ¬ drop_counter_incremented
        (enhanced_breakpoint_probe (some 1) false 7 7 [] ptregs0 (fun _ => none)) :=
  ⟨rfl, rfl, fun h => h rfl⟩

/-- Claim C7 as amended: when the ring-buffer reservation fails the probe
silently drops the event and returns without blocking or retrying, and a
dropped event causes no other state change; no drop counter is maintained
by the probe. -/
theorem claim_C7_amended (e : Nat) (he : e ≠ 0) (pid_tgid ts : Nat)
    (comm : List Nat) (ctx : PtRegs) (ru : Int → Option Nat) :
    enhanced_breakpoint_probe (some e) false pid_tgid ts comm ctx ru =
      { reserve_attempted := true, emitted := none, map_writes := [] } := by
  simp [enhanced_breakpoint_probe, he]

/-- Claim C7 amended witness at a concrete dropped firing. -/
theorem claim_C7_amended_witness :
    enhanced_breakpoint_probe (some 1) false 3 4 [] ptregs0 (fun _ => none) =
      { reserve_attempted := true, emitted := none, map_writes := [] } :=
  claim_C7_amended 1 (by decide) 3 4 [] ptregs0 (fun _ => none)

/-- Claim C8 counterexample: the continue command mutates the session state
with the lock depth at zero, so the handler does not acquire the session
lock before mutating. -/
theorem claim_C8_counterexample :
    Act.write_session ∈ handle_input_acts InputKey.keyC
    ∧ writes_locked (handle_input_acts InputKey.keyC) 0 = false := by
  decide

/-- Claim C8 as amended: every user command key mutates the session state
directly, performing no lock or unlock action, so its writes happen outside
the session lock; the event thread, by contrast, performs its session
writes under the lock. -/
theorem claim_C8_amended :
    (∀ k ∈ [InputKey.keyF5, InputKey.keyF10, InputKey.keyF11, InputKey.keyQ,
        InputKey.keyC, InputKey.keyS, InputKey.keyB, InputKey.keyR],
      Act.write_session ∈ handle_input_acts k
      ∧ Act.lock ∉ handle_input_acts k
      ∧ writes_locked (handle_input_acts k) 0 = false)
    ∧ writes_locked event_thread_iteration_acts 0 = true := by
  decide

/-- Claim C8 amended witness at the step command key. -/
theorem claim_C8_amended_witness :
    Act.write_session ∈ handle_input_acts InputKey.keyS
    ∧ Act.lock ∉ handle_input_acts InputKey.keyS
    ∧ writes_locked (handle_input_acts InputKey.keyS) 0 = false :=
  claim_C8_amended.1 InputKey.keyS (by decide)

/-- Claim C4: applying an ingested event while the session is stopped leaves
the debug state stopped, unless the event kind is breakpoint-hit at an
address matching a currently enabled breakpoint, in which case the state
becomes at-breakpoint.  The application step is modelled from the spec
because the src event thread is a simulation that ingests no events. -/
theorem claim_C4 (ctx : DebuggerCtx) (e : IngestEvent)
    (h : ctx.state = DebugState.stopped) :
    ((e.kind = EventKind.breakpointHit ∧
        ∃ bp ∈ ctx.breakpoints, bp.addr = e.addr ∧ bp.enabled = true) →
      (apply_event ctx e).state = DebugState.breakpoint)
    ∧ (¬ (e.kind = EventKind.breakpointHit ∧
        ∃ bp ∈ ctx.breakpoints, bp.addr = e.addr ∧ bp.enabled = true) →
      (apply_event ctx e).state = DebugState.stopped) := by
  have hb : (decide (e.kind = EventKind.breakpointHit) &&
      ctx.breakpoints.any (fun bp => decide (bp.addr = e.addr) && bp.enabled)) = true ↔
      (e.kind = EventKind.breakpointHit ∧
        ∃ bp ∈ ctx.breakpoints, bp.addr = e.addr ∧ bp.enabled = true) := by
    simp [List.any_eq_true]
  constructor
  · intro hcond
    unfold apply_event
    rw [if_pos (hb.mpr hcond)]
  · intro hcond
    unfold apply_event
    rw [if_neg ?hh]
    · exact h
    · intro hx
      exact hcond (hb.mp hx)

/-- Concrete stopped session with one enabled breakpoint, for the claim C4
witness. -/
def ctx_bp100 : DebuggerCtx :=
  { init_debugger with breakpoints := [{ addr := 100, enabled := true, symbol := "f" }] }

/-- Concrete breakpoint-hit event at the enabled breakpoint address. -/
def ev_bp100 : IngestEvent :=
  { kind := .breakpointHit, addr := 100, function_name := "f", regs := init_regs }

/-- Claim C4 witness: a breakpoint-hit event at an enabled breakpoint moves
a stopped session to the at-breakpoint state. -/
theorem claim_C4_witness : (apply_event ctx_bp100 ev_bp100).state = DebugState.breakpoint :=
  (claim_C4 ctx_bp100 ev_bp100 rfl).1
    ⟨rfl, { addr := 100, enabled := true, symbol := "f" },
      List.mem_singleton.mpr rfl, rfl, rfl⟩

/-- The copy loop writes at most its fuel many characters. -/
theorem strcpy_chars_length (f : Nat → Nat) :
    ∀ (fuel i : Nat), (strcpy_chars f i fuel).length ≤ fuel := by
  intro fuel
  induction fuel with
  | zero => intro i; simp [strcpy_chars]
  | succ n ih =>
    intro i
    unfold strcpy_chars
    by_cases hf : f i = 0
    · simp [hf]
    · simpa [hf] using Nat.succ_le_succ (ih (i + 1))

/-- Every character the copy loop emits is nonzero, since the loop stops at
the first zero byte. -/
theorem strcpy_chars_ne_zero (f : Nat → Nat) :
    ∀ (fuel i : Nat), ∀ c ∈ strcpy_chars f i fuel, c ≠ 0 := by
  intro fuel
  induction fuel with
  | zero => intro i c hc; simp [strcpy_chars] at hc
  | succ n ih =>
    intro i c hc
    unfold strcpy_chars at hc
    by_cases hf : f i = 0
    · simp [hf] at hc
    · rw [if_neg hf] at hc
      rcases List.mem_cons.mp hc with rfl | hc
      · exact hf
      · exact ih (i + 1) c hc

/-- The copy loop never reads an index beyond a zero byte of the source. -/
theorem strcpy_reads_le (f : Nat → Nat) (k : Nat) (hk : f k = 0) :
    ∀ (fuel i : Nat), i ≤ k → ∀ r ∈ strcpy_reads f i fuel, r ≤ k := by
  intro fuel
  induction fuel with
  | zero => intro i _ r hr; simp [strcpy_reads] at hr
  | succ n ih =>
    intro i hi r hr
    unfold strcpy_reads at hr
    by_cases hf : f i = 0
    · simp [hf] at hr
      omega
    · rw [if_neg hf] at hr
      rcases List.mem_cons.mp hr with rfl | hr
      · exact hi
      · have hik : i ≠ k := fun h => hf (h ▸ hk)
        exact ih (i + 1) (by omega) r hr

/-- The content before the first zero byte of a buffer built from nonzero
characters, a zero terminator and trailing bytes is exactly the characters. -/
theorem takeWhile_append_zero (l r : List Nat) (hl : ∀ c ∈ l, c ≠ 0) :
    (l ++ 0 :: r).takeWhile (fun c => c != 0) = l := by
  induction l with
  | nil => simp
  | cons x xs ih =>
    have hx : x ≠ 0 := hl x (List.mem_cons_self x xs)
    have hxs : ∀ c ∈ xs, c ≠ 0 := fun c hc => hl c (List.mem_cons_of_mem x hc)
    simp [List.takeWhile_cons, hx, ih hxs]

/-- Claim C5: for every source (including a null source) and every capacity
of at least one byte, safe_strcpy copies at most max_len - 1 characters,
never reads the source past a terminating zero byte, and always leaves the
destination zero-terminated; consequently the function_name field of every
emitted event is a 64-byte zero-terminated buffer whose content length is
at most 63. -/
theorem claim_C5 (src : Option (Nat → Nat)) (max_len : Nat) (hmax : 1 ≤ max_len) :
    (strcpy_source_chars src max_len).length ≤ max_len - 1
    ∧ (safe_strcpy src max_len).length ≤ max_len
    ∧ (safe_strcpy src max_len).getLast? = some 0
    ∧ safe_strcpy_reads none max_len = []
    ∧ (∀ f k, src = some f → f k = 0 →
        ∀ r ∈ safe_strcpy_reads src max_len, r ≤ k)
    ∧ (∀ ctrl pid_tgid ts cpu et fn ev,
        send_debug_event ctrl pid_tgid ts cpu et fn = some ev →
        ev.function_name.length = 64 ∧ cstr_len ev.function_name ≤ 63
          ∧ 0 ∈ ev.function_name) := by
  refine ⟨?_, ?_, ?_, rfl, ?_, ?_⟩
  · cases src with
    | none => simp [strcpy_source_chars]
    | some f => exact strcpy_chars_length f (max_len - 1) 0
  · cases src with
    | none => simpa [safe_strcpy] using hmax
    | some f =>
      have h := strcpy_chars_length f (max_len - 1) 0
      simp only [safe_strcpy, List.length_append, List.length_singleton]
      omega
  · cases src with
    | none => rfl
    | some f => exact List.getLast?_concat _
  · intro f k hsrc hk r hr
    subst hsrc
    exact strcpy_reads_le f k hk (max_len - 1) 0 (Nat.zero_le k) r hr
  · intro ctrl pid_tgid ts cpu et fn ev hev
    unfold send_debug_event at hev
    by_cases hs : should_trace_process ctrl (upper32 pid_tgid) = true
    · rw [if_pos hs] at hev
      injection hev with hev
      subst hev
      cases fn with
      | none =>
        refine ⟨rfl, ?_, ?_⟩
        · show cstr_len (List.replicate 64 0) ≤ 63
          decide
        · show 0 ∈ List.replicate 64 0
          decide
      | some f =>
        have hlen := strcpy_chars_length f (64 - 1) 0
        have hne := strcpy_chars_ne_zero f (64 - 1) 0
        simp only [MAX_FUNCTION_NAME, safe_strcpy, pad_zero]
        have hassoc :
            (strcpy_chars f 0 (64 - 1) ++ [0]) ++
                List.replicate (64 - (strcpy_chars f 0 (64 - 1) ++ [0]).length) 0 =
              strcpy_chars f 0 (64 - 1) ++
                (0 :: List.replicate (64 - (strcpy_chars f 0 (64 - 1) ++ [0]).length) 0) := by
          rw [List.append_assoc]
          rfl
        refine ⟨?_, ?_, ?_⟩
        · simp only [List.length_append, List.length_replicate, List.length_singleton]
          omega
        · rw [hassoc]
          unfold cstr_len
          rw [takeWhile_append_zero _ _ hne]
          omega
        · rw [hassoc]
          simp
    · rw [if_neg hs] at hev
      exact absurd hev (by simp)

/-- Concrete two-character source memory for the claim C5 witness. -/
def src_ab : Nat → Nat := fun i => if i < 2 then 65 else 0

/-- Claim C5 witness at a concrete source whose terminating zero byte is at
index 2. -/
theorem claim_C5_witness :
    (safe_strcpy (some src_ab) 64).getLast? = some 0
    ∧ ∀ r ∈ safe_strcpy_reads (some src_ab) 64, r ≤ 2 :=
  ⟨(claim_C5 (some src_ab) 64 (by decide)).2.2.1,
   (claim_C5 (some src_ab) 64 (by decide)).2.2.2.2.1 src_ab 2 rfl rfl⟩

/-- Claim C6: every emitted template event has every register, stack and
local-variable field initialized: the thread pointer, a6, a7, the
temporaries t0 to t2 and the saved s0 and s1 are zero, the stack and
local-variable arrays have their full lengths, and any slot whose memory
read fails is zero. -/
theorem claim_C6 (pid_tgid ts : Nat) (comm : List Nat) (ctx : PtRegs)
    (readUser : Int → Option Nat) :
    (mk_enhanced_event pid_tgid ts comm ctx readUser).tp = 0
    ∧ (mk_enhanced_event pid_tgid ts comm ctx readUser).a6 = 0
    ∧ (mk_enhanced_event pid_tgid ts comm ctx readUser).a7 = 0
    ∧ (mk_enhanced_event pid_tgid ts comm ctx readUser).t0 = 0
    ∧ (mk_enhanced_event pid_tgid ts comm ctx readUser).t1 = 0
    ∧ (mk_enhanced_event pid_tgid ts comm ctx readUser).t2 = 0
    ∧ (mk_enhanced_event pid_tgid ts comm ctx readUser).s0 = 0
    ∧ (mk_enhanced_event pid_tgid ts comm ctx readUser).s1 = 0
    ∧ (mk_enhanced_event pid_tgid ts comm ctx readUser).stack_data.length = 8
    ∧ (mk_enhanced_event pid_tgid ts comm ctx readUser).local_vars.length = 16
    ∧ (∀ i : Nat, i < 8 → readUser ((ctx.sp : Int) + (i : Int) * 8) = none →
        (mk_enhanced_event pid_tgid ts comm ctx readUser).stack_data.get? i = some 0)
    ∧ (∀ i : Nat, i < 16 → readUser ((ctx.fp : Int) - ((i : Int) + 1) * 8) = none →
        (mk_enhanced_event pid_tgid ts comm ctx readUser).local_vars.get? i = some 0) := by
  have hsd : (mk_enhanced_event pid_tgid ts comm ctx readUser).stack_data =
      (List.range 8).map (fun j : Nat =>
        match readUser ((ctx.sp : Int) + (j : Int) * 8) with
        | some v => v
        | none => 0) := by
    simp [mk_enhanced_event, read_user_stack_data]
  have hlv : (mk_enhanced_event pid_tgid ts comm ctx readUser).local_vars =
      (List.range 16).map (fun j : Nat =>
        match readUser ((ctx.fp : Int) - ((j : Int) + 1) * 8) with
        | some v => v
        | none => 0) := by
    simp [mk_enhanced_event, read_local_variables]
  refine ⟨rfl, rfl, rfl, rfl, rfl, rfl, rfl, rfl, ?_, ?_, ?_, ?_⟩
  · rw [hsd]
    simp
  · rw [hlv]
    simp
  · intro i hi hnone
    rw [hsd, List.get?_map, List.get?_range hi]
    simp [hnone]
  · intro i hi hnone
    rw [hlv, List.get?_map, List.get?_range hi]
    simp [hnone]

/-- Claim C6 witness: with every user-memory read failing, the concrete
event has a zeroed thread pointer and a zeroed first stack slot. -/
theorem claim_C6_witness :
    (mk_enhanced_event 0 0 [] ptregs0 (fun _ => none)).tp = 0
    ∧ (mk_enhanced_event 0 0 [] ptregs0 (fun _ => none)).stack_data.get? 0 = some 0 :=
  ⟨(claim_C6 0 0 [] ptregs0 (fun _ => none)).1,
   (claim_C6 0 0 [] ptregs0 (fun _ => none)).2.2.2.2.2.2.2.2.2.2.1 0 (by decide) rfl⟩

/-- Supporting fact: the simulated event thread of src never changes the
debug state field, confirming that the transition logic of the ingestion
service exists only in the specification. -/
theorem event_thread_step_state (ctx : DebuggerCtx) (counter : Nat) :
    (event_thread_step ctx counter).state = ctx.state := by
  cases h : ctx.state <;>
    simp [event_thread_step, h, apply_ite DebuggerCtx.state]
